import Mathlib

/-!
# StitchPix frontend — verification of the generation core

Shallow embedding of the StitchPix single-page application
(`src/App.js`, primary variant, called "variant A" below, and the
second authoring iteration `src/unnamed/part_000`, "variant B").
The embedding covers the pieces the specification's claims are about:

* the Local Compositor `createMergedImages` (App.js lines 286–359),
* the Generation Dispatcher `handleGenerate` (lines 362–397),
* the remote adapters `callNanoBanana` / `callDeepAI` (lines 243–283),
* the model registry `aiModels` / `currentModelData` (lines 64–79),
* image ingestion `validateImageFile` / `handleImageUpload` (lines 209–239),
* the login flow's client-side validation `handleLogin` (lines 163–201).

Modelling conventions:

* An image payload (a base64 data URL in the browser) is a `String`
  together with its decode outcome: `some` pixel dimensions when the
  browser's `Image` element would fire `onload`, `none` when it would
  fire `onerror`.  Decoding is deterministic per payload.
* JS numbers are modelled in `ℚ` with `Math.round x = ⌊x + 1/2⌋`
  (round half toward +∞, exactly JS `Math.round`).  The source's
  decimal constants (`0.25`, `1.2`, `0.08`, `0.1`, `0.5`, `0.4`) are
  taken as exact rationals.
* Effects are explicit: network responses and whether the clipped
  `drawImage` call throws are inputs; HTTP round trips and compositor
  invocations are counted in the returned outcome records.
* The fulfilled value of a promise that can only `resolve` is modelled
  as the function's return value; `createMergedImages` never invokes
  `reject`, so its embedding is a total function.
-/

set_option autoImplicit false

namespace StitchPix

/-- Pixel dimensions of a decoded image. -/
structure Dims where
  width : Nat
  height : Nat
deriving DecidableEq, Repr

/-- An image payload (data URL string) together with its decode outcome:
`some dims` if the browser decodes it (the `Image` fires `onload` with these
pixel dimensions), `none` if decoding fails (`onerror`). -/
structure EncodedImage where
  data : String
  decode : Option Dims
deriving DecidableEq, Repr

/-- JS `Math.round`: round half toward positive infinity, `⌊x + 1/2⌋`. -/
def jsRound (x : ℚ) : ℤ := ⌊x + 1 / 2⌋

/-- The eight geometric values `createMergedImages` computes
(App.js lines 304–314): destination face rectangle from the canvas
(= garment) dimensions and source crop rectangle from the subject's own
dimensions. -/
structure OverlayGeom where
  faceX : ℤ
  faceY : ℤ
  faceWidth : ℤ
  faceHeight : ℤ
  uX : ℤ
  uY : ℤ
  uW : ℤ
  uH : ℤ
deriving DecidableEq, Repr

/-- App.js lines 304–314: the face-placement heuristic.  `subject` are the
decoded dimensions of the user image, `canvas` those of the output canvas
(= the garment image). -/
def overlayGeom (subject canvas : Dims) : OverlayGeom :=
  let faceWidth := jsRound ((canvas.width : ℚ) * 0.25)
  let faceHeight := jsRound ((faceWidth : ℚ) * 1.2)
  let faceX := jsRound (((canvas.width : ℚ) - (faceWidth : ℚ)) / 2)
  let faceY := jsRound ((canvas.height : ℚ) * 0.08)
  let uX := jsRound ((subject.width : ℚ) * 0.25)
  let uY := jsRound ((subject.height : ℚ) * 0.1)
  let uW := jsRound ((subject.width : ℚ) * 0.5)
  let uH := jsRound ((subject.height : ℚ) * 0.4)
  ⟨faceX, faceY, faceWidth, faceHeight, uX, uY, uW, uH⟩

/-- The drawing of the subject onto the canvas.  The normal path is the
9-argument `drawImage` under a rounded-rectangle clip (both the native
`ctx.roundRect` branch and the `arcTo` fallback branch of the source trace
the same rounded rectangle of radius 36); if that `drawImage` throws, the
catch block draws the whole subject image scaled into the destination
rectangle, unclipped (App.js lines 335–340). -/
inductive OverlayOp where
  | clipped (uX uY uW uH faceX faceY faceWidth faceHeight radius : ℤ)
  | unclipped (faceX faceY faceWidth faceHeight : ℤ)
deriving DecidableEq, Repr

/-- The output canvas built by `createMergedImages`: sized to the garment,
garment drawn as base layer over the full canvas, then one overlay draw. -/
structure MergedCanvas where
  width : Nat
  height : Nat
  base : String
  overlay : OverlayOp
deriving DecidableEq, Repr

/-- Provenance of a result image URL: passthrough of an input data URL,
`canvas.toDataURL` of a merged canvas, or a remote provider URL. -/
inductive ResultURL where
  | passthrough (data : String)
  | canvasPNG (c : MergedCanvas)
  | remote (url : String)
deriving DecidableEq, Repr

/-- One element of the `generatedImages` array:
`{ id, url, quality, source }`. -/
structure GeneratedImage where
  id : Nat
  url : ResultURL
  quality : String
  source : String
deriving DecidableEq, Repr

/-- App.js lines 286–359, `createMergedImages(userPhotoData, dressPhotoData)`.

The promise executor only ever calls `resolve`, so the embedding is a total
function returning the resolved array.  The decode sequencing of the source
is kept: `userImg.src` is assigned first; if the subject fails to decode,
`userImg.onerror` resolves with the dress payload and the garment decode is
never attempted.  Only once the subject has loaded is `dressImg.src`
assigned; a garment decode failure then resolves with the subject payload.
With both decoded, the canvas is sized to the garment, the garment drawn as
base, and the subject crop drawn under a radius-36 rounded-rectangle clip —
or, when that `drawImage` throws (`drawThrows`), the whole subject drawn
unclipped into the face rectangle. -/
def createMergedImages (u d : EncodedImage) (drawThrows : Bool) :
    List GeneratedImage :=
  match u.decode with
  | none => [⟨1, ResultURL.passthrough d.data, "Original", "original"⟩]
  | some ud =>
    match d.decode with
    | none => [⟨1, ResultURL.passthrough u.data, "Original", "original"⟩]
    | some dd =>
      let g := overlayGeom ud dd
      let overlay :=
        if drawThrows then
          OverlayOp.unclipped g.faceX g.faceY g.faceWidth g.faceHeight
        else
          OverlayOp.clipped g.uX g.uY g.uW g.uH
            g.faceX g.faceY g.faceWidth g.faceHeight 36
      [⟨1, ResultURL.canvasPNG ⟨dd.width, dd.height, d.data, overlay⟩,
        "Canvas Merged", "canvas"⟩]

/-- The merged canvas of a result array, when its head is a canvas result. -/
def canvasOf (r : List GeneratedImage) : Option MergedCanvas :=
  r.head?.bind fun g =>
    match g.url with
    | ResultURL.canvasPNG c => some c
    | _ => none

/-- The overlay draw of a result array, when its head is a canvas result. -/
def overlayOf (r : List GeneratedImage) : Option OverlayOp :=
  (canvasOf r).map (·.overlay)

/-! ## Model registry (App.js lines 64–79 / part_000 lines 57–69) -/

/-- One entry of the `aiModels` catalog. -/
structure ModelDescriptor where
  id : String
  name : String
  needsApi : Bool
  description : String
deriving DecidableEq, Repr

/-- Variant A (App.js lines 64–70): the `aiModels.free` list. -/
def aiModelsFree : List ModelDescriptor :=
  [⟨"canvas", "Canvas Merge (Free)", false, "Basic image merging using canvas"⟩,
   ⟨"nanobanana", "Nano Banana API", true, "Advanced virtual try-on"⟩,
   ⟨"deepai", "DeepAI Image Editor", true, "Image editing/generation"⟩,
   ⟨"huggingface", "Hugging Face Inference API", true, "Open-source ML models"⟩]

/-- Variant A (App.js lines 71–74): the `aiModels.paid` list. -/
def aiModelsPaid : List ModelDescriptor :=
  [⟨"replicate", "Replicate API", true, "Run community models"⟩,
   ⟨"stability", "Stability AI", true, "Image generation API"⟩]

/-- Variant A (App.js line 77): `allModels = [...aiModels.free, ...aiModels.paid]`. -/
def allModels : List ModelDescriptor := aiModelsFree ++ aiModelsPaid

/-- Variant A (App.js line 79):
`currentModelData = allModels.find((m) => m.id === selectedModel)` —
note: no fallback; `Array.prototype.find` yields `undefined` on a miss. -/
def currentModelData (selectedModel : String) : Option ModelDescriptor :=
  allModels.find? (fun m => m.id == selectedModel)

/-- Variant B (part_000 line 59): `allModels[0]`, the canvas entry. -/
def canvasModelB : ModelDescriptor :=
  ⟨"canvas", "Canvas Merge (Free)", false, "Local canvas merging fallback"⟩

/-- Variant B (part_000 lines 57–68): its `allModels`
(free ++ paid; this variant has no `huggingface` entry). -/
def allModelsB : List ModelDescriptor :=
  [canvasModelB,
   ⟨"nanobanana", "NanoBanana", true, "Virtual try-on API"⟩,
   ⟨"deepai", "DeepAI", true, "Image editing API"⟩,
   ⟨"replicate", "Replicate", true, "Community models"⟩,
   ⟨"stability", "Stability AI", true, "Image generation"⟩]

/-- Variant B (part_000 lines 330 and 482):
`allModels.find((m) => m.id === selectedModel) || allModels[0]` —
resolution with a fallback to the default canvas descriptor. -/
def resolveModelB (selectedModel : String) : ModelDescriptor :=
  (allModelsB.find? (fun m => m.id == selectedModel)).getD canvasModelB

/-! ## Remote backend adapters (App.js lines 243–283)

An adapter call's observable outcome is determined by the provider's
response, an input of the model.  Each adapter returns the JS function's
outcome (`Except`: thrown error message, or the returned result array)
paired with the number of HTTP round trips it issued. -/

/-- A provider's behaviour for one request: the `fetch` promise rejects
(network error), or an HTTP response arrives with a status and a parsed
JSON body holding the provider's optional `output_url` / `image_url`
fields. -/
inductive RemoteResponse where
  | networkError
  | http (status : Nat) (output_url image_url : Option String)
deriving DecidableEq, Repr

/-- JS `a || b` on two optional strings, where `undefined` and `""` are
falsy: the value of the disjunction as used by the adapters. -/
def jsStringOr (a b : Option String) : Option String :=
  match a with
  | some s => if s = "" then b else some s
  | none => b

/-- Truthiness of an optional JS string: present and non-empty. -/
def jsTruthy (a : Option String) : Bool :=
  match a with
  | some s => s ≠ ""
  | none => false

/-- JS `res.ok`: status in the 2xx range. -/
def httpOk (status : Nat) : Bool := 200 ≤ status ∧ status < 300

/-- App.js lines 243–270, `callNanoBanana`.  Throws before any fetch when
the API key is empty; one multipart POST otherwise; throws on a rejected
fetch, a non-ok status, or a body with neither a truthy `output_url` nor a
truthy `image_url`; else returns the singleton result tagged
`nanobanana`.  (A rejected browser `fetch` carries the message
"Failed to fetch".) -/
def callNanoBanana (apiKey : String) (resp : RemoteResponse) :
    Except String (List GeneratedImage) × Nat :=
  if apiKey = "" then (Except.error "NanoBanana requires API key", 0)
  else
    match resp with
    | RemoteResponse.networkError => (Except.error "Failed to fetch", 1)
    | RemoteResponse.http status ou iu =>
      if ¬ httpOk status then
        (Except.error ("NanoBanana API failed (" ++ toString status ++ ")"), 1)
      else
        match jsStringOr ou iu with
        | some url =>
          if url = "" then (Except.error "NanoBanana returned no image URL", 1)
          else
            (Except.ok [⟨1, ResultURL.remote url,
              "AI Enhanced (NanoBanana)", "nanobanana"⟩], 1)
        | none => (Except.error "NanoBanana returned no image URL", 1)

/-- App.js lines 272–283, `callDeepAI`.  Same shape; the response's only
consulted field is `output_url`. -/
def callDeepAI (apiKey : String) (resp : RemoteResponse) :
    Except String (List GeneratedImage) × Nat :=
  if apiKey = "" then (Except.error "DeepAI requires API key", 0)
  else
    match resp with
    | RemoteResponse.networkError => (Except.error "Failed to fetch", 1)
    | RemoteResponse.http status ou _ =>
      if ¬ httpOk status then
        (Except.error ("DeepAI failed (" ++ toString status ++ ")"), 1)
      else
        match ou with
        | some url =>
          if url = "" then (Except.error "DeepAI returned no image", 1)
          else
            (Except.ok [⟨1, ResultURL.remote url,
              "AI Enhanced (DeepAI)", "deepai"⟩], 1)
        | none => (Except.error "DeepAI returned no image", 1)

/-! ## Generation dispatcher (App.js lines 362–397) -/

/-- The component state `handleGenerate` reads. -/
structure AppState where
  userPhoto : Option EncodedImage
  dressPhoto : Option EncodedImage
  selectedModel : String
  apiKey : String
deriving DecidableEq

/-- The environment of one generate call: the providers' behaviour for the
requests this call would issue, and whether the compositor's clipped
`drawImage` throws. -/
structure GenEnv where
  nanoResp : RemoteResponse
  deepResp : RemoteResponse
  drawThrows : Bool
deriving DecidableEq

/-- The observable outcome of one `handleGenerate` call:
`generatedImages = some r` when `setGeneratedImages(r)` ran, the final
`errorMessage`, the final page, and counts of HTTP round trips and of
`createMergedImages` invocations. -/
structure GenOutcome where
  generatedImages : Option (List GeneratedImage)
  errorMessage : String
  page : String
  networkCalls : Nat
  compositorCalls : Nat
deriving DecidableEq

/-- App.js line 385: the advisory suffix appended to the captured remote
error message before the fallback runs (the bytes are as in the source,
a mis-encoded em dash). -/
def fallbackSuffix : String := " ‚Äî falling back to canvas merge..."

/-- The catch block of `handleGenerate` (App.js lines 383–393): surface the
captured error as an advisory, run the compositor once as fallback, show
the results.  (The compositor's promise only resolves, so the inner catch
is unreachable.) -/
def runFallback (u d : EncodedImage) (drawThrows : Bool) (msg : String)
    (networkCalls compositorCalls : Nat) : GenOutcome :=
  let fb := createMergedImages u d drawThrows
  ⟨some fb, msg ++ fallbackSuffix, "results", networkCalls, compositorCalls + 1⟩

/-- App.js lines 362–397, `handleGenerate` (variant A).

Order of the source: clear the error message; require both photos; require
an API key when the resolved descriptor needs one
(`currentModelData?.needsApi && !apiKey`); dispatch on the selected model
id (`nanobanana` / `deepai` / anything else → local compositor); throw if
the result is not a non-empty array; on any thrown error, surface it and
fall back to the compositor once. -/
def handleGenerate (st : AppState) (env : GenEnv) : GenOutcome :=
  match st.userPhoto, st.dressPhoto with
  | some u, some d =>
    if ((currentModelData st.selectedModel).map (fun m => m.needsApi)).getD false
        ∧ st.apiKey = "" then
      ⟨none,
       "API key required for "
         ++ ((currentModelData st.selectedModel).map (fun m => m.name)).getD "",
       "upload", 0, 0⟩
    else if st.selectedModel = "nanobanana" then
      match callNanoBanana st.apiKey env.nanoResp with
      | (Except.ok imgs, n) =>
        if imgs.isEmpty then
          runFallback u d env.drawThrows "No images returned from model" n 0
        else ⟨some imgs, "", "results", n, 0⟩
      | (Except.error msg, n) => runFallback u d env.drawThrows msg n 0
    else if st.selectedModel = "deepai" then
      match callDeepAI st.apiKey env.deepResp with
      | (Except.ok imgs, n) =>
        if imgs.isEmpty then
          runFallback u d env.drawThrows "No images returned from model" n 0
        else ⟨some imgs, "", "results", n, 0⟩
      | (Except.error msg, n) => runFallback u d env.drawThrows msg n 0
    else
      let imgs := createMergedImages u d env.drawThrows
      if imgs.isEmpty then
        runFallback u d env.drawThrows "No images returned from model" 0 1
      else ⟨some imgs, "", "results", 0, 1⟩
  | _, _ => ⟨none, "Upload both your photo and the dress model.", "upload", 0, 0⟩

/-! ## Login flow (App.js lines 91–92, 163–201) -/

/-- `[^\s@]`: a character that is neither whitespace nor `@`
(App.js line 91; `Char.isWhitespace` covers the space, tab and line-break
characters the relevant inputs can contain). -/
def emailChar (c : Char) : Bool := ¬ (c = '@' ∨ c.isWhitespace)

/-- Split a character list at every occurrence of `sep` (the semantics of
JS `String.prototype.split` with a one-character separator). -/
def splitOnChar (sep : Char) : List Char → List (List Char)
  | [] => [[]]
  | c :: cs =>
    match splitOnChar sep cs, decide (c = sep) with
    | r, true => [] :: r
    | [], false => [[c]]
    | h :: t, false => (c :: h) :: t

/-- App.js line 91, `isValidEmail`: the regex
`/^[^\s@]+@[^\s@]+\.[^\s@]+$/`.  A string matches iff it splits as
`A ++ "@" ++ B ++ "." ++ C` with `A`, `B`, `C` non-empty and free of
whitespace and `@` (so: exactly one `@`, no whitespace anywhere, and after
the `@` a `.` that is neither the first nor the last character). -/
def isValidEmail (email : String) : Bool :=
  match splitOnChar '@' email.toList with
  | [lpart, dpart] =>
    lpart ≠ [] ∧ lpart.all emailChar ∧ dpart.all emailChar ∧
      ((dpart.drop 1).dropLast).contains '.'
  | _ => false

/-- The auth backend's behaviour for one login POST: the fetch rejects, or
an HTTP response arrives with a status and the optional `message` field of
its parsed JSON body (`none` also covers an unparseable body, turned into
`{}` by the source's `.catch(() => ({}))`). -/
inductive LoginResponse where
  | networkError
  | http (status : Nat) (message : Option String)
deriving DecidableEq, Repr

/-- The observable outcome of one `handleLogin` call: the final
`authError`, the number of HTTP calls issued, and whether the login
succeeded (user stored, page switched to upload). -/
structure LoginOutcome where
  authError : String
  httpCalls : Nat
  loggedIn : Bool
deriving DecidableEq, Repr

/-- App.js lines 163–201, `handleLogin` (client-side gates and outcome).

Validation order of the source: `isValidEmail(authEmail)` must hold, else
"Enter a valid email"; `authPassword` must be truthy (non-empty), else
"Please enter your password".  Note: no password-length check — the
`isValidPassword` (≥ 6 characters) gate exists only in `handleSignUp`
(App.js line 123).  Only then is the POST issued; a non-ok status surfaces
the body's `message` when truthy, else `Login failed (status N)`. -/
def handleLogin (authEmail authPassword : String) (resp : LoginResponse) :
    LoginOutcome :=
  if ¬ isValidEmail authEmail then ⟨"Enter a valid email", 0, false⟩
  else if authPassword = "" then ⟨"Please enter your password", 0, false⟩
  else
    match resp with
    | LoginResponse.networkError =>
      ⟨"Login failed. Check network or server.", 1, false⟩
    | LoginResponse.http status msg =>
      if httpOk status then ⟨"", 1, true⟩
      else
        ⟨(jsStringOr msg
            (some ("Login failed (status " ++ toString status ++ ")"))).getD "",
         1, false⟩

/-! ## Image ingestion (App.js lines 209–239) -/

/-- The fields of a browser `File` object the ingestion path reads:
declared MIME type (`file.type`), byte size (`file.size`), and its
contents (consumed only by `FileReader.readAsDataURL`). -/
structure JSFile where
  ftype : String
  size : Nat
  content : String
deriving DecidableEq, Repr

/-- App.js lines 209–213, `validateImageFile`: first the declared content
type must start with `"image/"` (modelled on the character list, the
semantics of `String.prototype.startsWith`), then the byte size must not
exceed 6 MiB; returns the error string, or `null` (`none`) when valid. -/
def validateImageFile (file : JSFile) : Option String :=
  if ¬ "image/".toList.isPrefixOf file.ftype.toList then
    some "Please upload an image file (jpg, png, etc.)"
  else if file.size > 6 * 1024 * 1024 then some "Image too large. Max 6MB."
  else none

/-- `FileReader.readAsDataURL`, modelled as a deterministic encoding of the
file into a data URL string. -/
def readAsDataURL (file : JSFile) : String :=
  "data:" ++ file.ftype ++ ";base64," ++ file.content

/-- The observable outcome of one `handleImageUpload` call: final
`errorMessage`, both photo slots, and how many file reads were started. -/
structure UploadOutcome where
  errorMessage : String
  userPhoto : Option String
  dressPhoto : Option String
  fileReads : Nat
deriving DecidableEq, Repr

/-- App.js lines 215–239, `handleImageUpload` (for a prior photo state):
clear the error message; no-op when no file was picked; on a validation
error set `errorMessage` and stop (the `FileReader` is never constructed
and no photo slot changes); otherwise read the file and store the data URL
in the slot named by `ptype` (`"user"` or anything else → dress).  The
reader's `onerror` path (`readOk = false`) reports a read failure. -/
def handleImageUpload (userPhoto dressPhoto : Option String)
    (pickedFile : Option JSFile) (ptype : String) (readOk : Bool) :
    UploadOutcome :=
  match pickedFile with
  | none => ⟨"", userPhoto, dressPhoto, 0⟩
  | some file =>
    match validateImageFile file with
    | some err => ⟨err, userPhoto, dressPhoto, 0⟩
    | none =>
      if readOk then
        if ptype = "user" then
          ⟨"", some (readAsDataURL file), dressPhoto, 1⟩
        else ⟨"", userPhoto, some (readAsDataURL file), 1⟩
      else ⟨"Failed to read image file.", userPhoto, dressPhoto, 1⟩

/-! ## Spec-side overlay geometry

The following eight definitions are written from the specification's words
(§4.4 steps 4–5: percentages of the canvas size, respectively of the
subject's own size, each integer-rounded), independently of the source's
decimal constants, to be compared with the code-side `overlayGeom`. -/

/-- Spec: destination face width = 25% of canvas width, rounded. -/
def specDstW (canvas : Dims) : ℤ := jsRound ((25 * canvas.width : ℚ) / 100)

/-- Spec: destination face height = 120% of the destination width, rounded. -/
def specDstH (canvas : Dims) : ℤ := jsRound ((120 * specDstW canvas : ℚ) / 100)

/-- Spec: destination x = horizontally centered, rounded. -/
def specDstX (canvas : Dims) : ℤ :=
  jsRound (((canvas.width : ℚ) - (specDstW canvas : ℚ)) / 2)

/-- Spec: destination y = 8% of canvas height from the top, rounded. -/
def specDstY (canvas : Dims) : ℤ := jsRound ((8 * canvas.height : ℚ) / 100)

/-- Spec: source crop x = 25% of subject width, rounded. -/
def specSrcX (subject : Dims) : ℤ := jsRound ((25 * subject.width : ℚ) / 100)

/-- Spec: source crop y = 10% of subject height, rounded. -/
def specSrcY (subject : Dims) : ℤ := jsRound ((10 * subject.height : ℚ) / 100)

/-- Spec: source crop width = 50% of subject width, rounded. -/
def specSrcW (subject : Dims) : ℤ := jsRound ((50 * subject.width : ℚ) / 100)

/-- Spec: source crop height = 40% of subject height, rounded. -/
def specSrcH (subject : Dims) : ℤ := jsRound ((40 * subject.height : ℚ) / 100)

/-! ## Helper lemmas -/

lemma createMergedImages_length (u d : EncodedImage) (drawThrows : Bool) :
    (createMergedImages u d drawThrows).length = 1 := by
  unfold createMergedImages
  cases u.decode <;> cases d.decode <;> simp

lemma createMergedImages_ne_nil (u d : EncodedImage) (drawThrows : Bool) :
    createMergedImages u d drawThrows ≠ [] := by
  intro h
  have := createMergedImages_length u d drawThrows
  rw [h] at this
  simp at this

lemma createMergedImages_sources (u d : EncodedImage) (drawThrows : Bool) :
    (createMergedImages u d drawThrows).map (·.source) = ["canvas"] ∨
    (createMergedImages u d drawThrows).map (·.source) = ["original"] := by
  unfold createMergedImages
  cases u.decode <;> cases d.decode <;> simp

lemma createMergedImages_decoded (u d : EncodedImage) (drawThrows : Bool)
    (ud dd : Dims) (hu : u.decode = some ud) (hd : d.decode = some dd) :
    (createMergedImages u d drawThrows).map (·.source) = ["canvas"] := by
  unfold createMergedImages
  rw [hu, hd]
  cases drawThrows <;> simp

lemma jsRound_congr {a b : ℚ} (h : a = b) : jsRound a = jsRound b := by rw [h]

lemma specDstW_eq (c : Dims) : specDstW c = jsRound ((c.width : ℚ) * 0.25) := by
  unfold specDstW
  apply jsRound_congr
  norm_num
  ring

/-- The code-side heuristic of `createMergedImages` computes exactly the
spec-side geometry. -/
lemma overlayGeom_spec (s c : Dims) :
    overlayGeom s c =
      ⟨specDstX c, specDstY c, specDstW c, specDstH c,
       specSrcX s, specSrcY s, specSrcW s, specSrcH s⟩ := by
  have hw := specDstW_eq c
  simp only [overlayGeom, OverlayGeom.mk.injEq]
  refine ⟨?_, ?_, ?_, ?_, ?_, ?_, ?_, ?_⟩
  · rw [specDstX, hw]
  · unfold specDstY; apply jsRound_congr; norm_num; ring
  · rw [hw]
  · rw [specDstH, hw]; apply jsRound_congr; norm_num; ring
  · unfold specSrcX; apply jsRound_congr; norm_num; ring
  · unfold specSrcY; apply jsRound_congr; norm_num; ring
  · unfold specSrcW; apply jsRound_congr; norm_num; ring
  · unfold specSrcH; apply jsRound_congr; norm_num; ring

/-! ## Claim theorems -/

/-- C1: for every pair of input images, `createMergedImages` terminates and
returns a non-empty (singleton) result and never fails outward: its promise
executor only resolves.  Every decode failure degrades to an original-image
passthrough (source tag `original`), and a draw failure on decoded inputs
degrades to the unclipped overlay into the same face rectangle. -/
theorem c1_compositor_total :
    (∀ (u d : EncodedImage) (drawThrows : Bool),
      (createMergedImages u d drawThrows).length = 1) ∧
    (∀ (u d : EncodedImage) (drawThrows : Bool),
      u.decode = none ∨ d.decode = none →
      (createMergedImages u d drawThrows).map (·.source) = ["original"]) ∧
    (∀ (u d : EncodedImage) (ud dd : Dims),
      u.decode = some ud → d.decode = some dd →
      overlayOf (createMergedImages u d true) =
        some (OverlayOp.unclipped (overlayGeom ud dd).faceX
          (overlayGeom ud dd).faceY (overlayGeom ud dd).faceWidth
          (overlayGeom ud dd).faceHeight)) := by
  refine ⟨createMergedImages_length, ?_, ?_⟩
  · intro u d drawThrows h
    unfold createMergedImages
    rcases h with h | h
    · rw [h]
      simp
    · rw [h]
      cases u.decode <;> simp
  · intro u d ud dd hu hd
    unfold createMergedImages
    rw [hu, hd]
    simp [overlayOf, canvasOf]

/-- Witness for C1 at concrete inputs: an undecodable garment degrades to a
passthrough, and a throwing draw on a decoded 4×4 pair yields the unclipped
overlay. -/
theorem c1_compositor_total_witness :
    (createMergedImages ⟨"u", some ⟨4, 4⟩⟩ ⟨"d", none⟩ false).map (·.source) =
      ["original"] ∧
    overlayOf (createMergedImages ⟨"u", some ⟨4, 4⟩⟩ ⟨"d", some ⟨4, 4⟩⟩ true) =
      some (OverlayOp.unclipped 2 0 1 1) := by
  constructor
  · exact c1_compositor_total.2.1 ⟨"u", some ⟨4, 4⟩⟩ ⟨"d", none⟩ false (Or.inr rfl)
  · rw [c1_compositor_total.2.2 ⟨"u", some ⟨4, 4⟩⟩ ⟨"d", some ⟨4, 4⟩⟩
      ⟨4, 4⟩ ⟨4, 4⟩ rfl rfl]
    norm_num [overlayGeom, jsRound]

/-- C2: for a generate call on a remote-backend model (`nanobanana` or
`deepai`) whose adapter invocation fails, the dispatcher runs the Local
Compositor exactly once as a non-retried fallback and returns its result
tagged `source=canvas` (inputs decodable), while the original adapter error
message is surfaced as a non-fatal advisory in `errorMessage` alongside the
shown result rather than thrown. -/
theorem c2_remote_failure_fallback :
    ∀ (st : AppState) (env : GenEnv) (u d : EncodedImage) (ud dd : Dims)
      (msg : String),
      st.userPhoto = some u → st.dressPhoto = some d →
      u.decode = some ud → d.decode = some dd →
      st.apiKey ≠ "" →
      (st.selectedModel = "nanobanana" ∧
          (callNanoBanana st.apiKey env.nanoResp).1 = Except.error msg) ∨
        (st.selectedModel = "deepai" ∧
          (callDeepAI st.apiKey env.deepResp).1 = Except.error msg) →
      (handleGenerate st env).compositorCalls = 1 ∧
      (handleGenerate st env).generatedImages =
        some (createMergedImages u d env.drawThrows) ∧
      ((handleGenerate st env).generatedImages.getD []).map (·.source) =
        ["canvas"] ∧
      (handleGenerate st env).errorMessage = msg ++ fallbackSuffix ∧
      (handleGenerate st env).page = "results" := by
  intro st env u d ud dd msg hu hd hud hdd hkey hcase
  obtain ⟨up, dp, sm, ak⟩ := st
  simp only at hu hd hkey hcase
  subst hu hd
  have hguard : ¬ (((currentModelData sm).map (fun m => m.needsApi)).getD false
      ∧ ak = "") := fun h => hkey h.2
  rcases hcase with ⟨hsm, herr⟩ | ⟨hsm, herr⟩ <;> subst hsm
  · rcases hcall : callNanoBanana ak env.nanoResp with ⟨r, n⟩
    rw [hcall] at herr
    simp only at herr
    subst herr
    simp only [handleGenerate, if_neg hguard, if_pos rfl, hcall, runFallback]
    exact ⟨rfl, rfl, createMergedImages_decoded u d env.drawThrows ud dd hud hdd,
      rfl, rfl⟩
  · rcases hcall : callDeepAI ak env.deepResp with ⟨r, n⟩
    rw [hcall] at herr
    simp only at herr
    subst herr
    simp only [handleGenerate, if_neg hguard, if_neg (by decide : ¬ ("deepai" = "nanobanana")),
      if_pos rfl, hcall, runFallback]
    exact ⟨rfl, rfl, createMergedImages_decoded u d env.drawThrows ud dd hud hdd,
      rfl, rfl⟩

/-- Witness for C2: `nanobanana` selected with key `"k"`, the fetch rejects
(network error); the outcome is the canvas fallback with the advisory. -/
theorem c2_remote_failure_fallback_witness :
    (handleGenerate
        ⟨some ⟨"u", some ⟨4, 4⟩⟩, some ⟨"d", some ⟨4, 4⟩⟩, "nanobanana", "k"⟩
        ⟨RemoteResponse.networkError, RemoteResponse.networkError, false⟩).compositorCalls = 1 ∧
    (handleGenerate
        ⟨some ⟨"u", some ⟨4, 4⟩⟩, some ⟨"d", some ⟨4, 4⟩⟩, "nanobanana", "k"⟩
        ⟨RemoteResponse.networkError, RemoteResponse.networkError, false⟩).generatedImages =
      some (createMergedImages ⟨"u", some ⟨4, 4⟩⟩ ⟨"d", some ⟨4, 4⟩⟩ false) ∧
    ((handleGenerate
        ⟨some ⟨"u", some ⟨4, 4⟩⟩, some ⟨"d", some ⟨4, 4⟩⟩, "nanobanana", "k"⟩
        ⟨RemoteResponse.networkError, RemoteResponse.networkError, false⟩).generatedImages.getD []).map (·.source) =
      ["canvas"] ∧
    (handleGenerate
        ⟨some ⟨"u", some ⟨4, 4⟩⟩, some ⟨"d", some ⟨4, 4⟩⟩, "nanobanana", "k"⟩
        ⟨RemoteResponse.networkError, RemoteResponse.networkError, false⟩).errorMessage =
      "Failed to fetch" ++ fallbackSuffix ∧
    (handleGenerate
        ⟨some ⟨"u", some ⟨4, 4⟩⟩, some ⟨"d", some ⟨4, 4⟩⟩, "nanobanana", "k"⟩
        ⟨RemoteResponse.networkError, RemoteResponse.networkError, false⟩).page =
      "results" :=
  c2_remote_failure_fallback _ _ _ _ ⟨4, 4⟩ ⟨4, 4⟩ "Failed to fetch"
    rfl rfl rfl rfl (by decide) (Or.inl ⟨rfl, rfl⟩)

/-- C3: when the resolved descriptor requires a credential and the API key
is empty, `handleGenerate` stops immediately with the missing-credential
message: zero network calls, zero compositor calls, no result, page
unchanged. -/
theorem c3_missing_credential :
    ∀ (st : AppState) (env : GenEnv) (u d : EncodedImage),
      st.userPhoto = some u → st.dressPhoto = some d →
      (currentModelData st.selectedModel).map (fun m => m.needsApi) = some true →
      st.apiKey = "" →
      handleGenerate st env =
        ⟨none,
         "API key required for "
           ++ ((currentModelData st.selectedModel).map (fun m => m.name)).getD "",
         "upload", 0, 0⟩ := by
  intro st env u d hu hd hneeds hkey
  obtain ⟨up, dp, sm, ak⟩ := st
  simp only at hu hd hneeds hkey
  subst hu hd hkey
  simp [handleGenerate, hneeds]

/-- Witness for C3: `nanobanana` (a credential-requiring entry) with an
empty key produces the inline error and no calls of any kind. -/
theorem c3_missing_credential_witness :
    handleGenerate
        ⟨some ⟨"u", some ⟨4, 4⟩⟩, some ⟨"d", some ⟨4, 4⟩⟩, "nanobanana", ""⟩
        ⟨RemoteResponse.networkError, RemoteResponse.networkError, false⟩ =
      ⟨none, "API key required for Nano Banana API", "upload", 0, 0⟩ := by
  rw [c3_missing_credential
    ⟨some ⟨"u", some ⟨4, 4⟩⟩, some ⟨"d", some ⟨4, 4⟩⟩, "nanobanana", ""⟩
    ⟨RemoteResponse.networkError, RemoteResponse.networkError, false⟩
    ⟨"u", some ⟨4, 4⟩⟩ ⟨"d", some ⟨4, 4⟩⟩ rfl rfl rfl rfl]
  rfl

/-- C4: for decodable inputs of any dimensions, the output canvas has
exactly the garment's decoded width and height, with the garment drawn as
the base layer filling it. -/
theorem c4_canvas_sized_to_garment :
    ∀ (u d : EncodedImage) (drawThrows : Bool) (ud dd : Dims),
      u.decode = some ud → d.decode = some dd →
      (canvasOf (createMergedImages u d drawThrows)).map
          (fun c => (c.width, c.height, c.base)) =
        some (dd.width, dd.height, d.data) := by
  intro u d drawThrows ud dd hu hd
  unfold createMergedImages
  rw [hu, hd]
  cases drawThrows <;> simp [canvasOf]

/-- Witness for C4: an 800×600 subject with a 1000×1500 garment yields a
1000×1500 canvas based on the garment. -/
theorem c4_canvas_sized_to_garment_witness :
    (canvasOf (createMergedImages ⟨"u", some ⟨800, 600⟩⟩
        ⟨"d", some ⟨1000, 1500⟩⟩ false)).map
        (fun c => (c.width, c.height, c.base)) =
      some (1000, 1500, "d") :=
  c4_canvas_sized_to_garment _ _ false ⟨800, 600⟩ ⟨1000, 1500⟩ rfl rfl

/-- C5 counterexample: with both payloads undecodable the garment image
fails to decode, yet `createMergedImages` returns the garment payload, not
the subject — the subject's `onerror` resolves first and the garment decode
is never attempted, so the claim's garment-failure clause does not hold as
stated. -/
theorem c5_counterexample :
    (⟨"garm", none⟩ : EncodedImage).decode = none ∧
    createMergedImages ⟨"subj", none⟩ ⟨"garm", none⟩ false =
      [⟨1, ResultURL.passthrough "garm", "Original", "original"⟩] ∧
    ResultURL.passthrough "garm" ≠ ResultURL.passthrough "subj" :=
  ⟨rfl, rfl, by decide⟩

/-- C5 as amended: if the subject image fails to decode, the result is
exactly the garment payload tagged `original` (the garment decode is never
attempted); if the subject decodes and the garment fails to decode, the
result is exactly the subject payload tagged `original`. -/
theorem c5_decode_passthrough :
    ∀ (u d : EncodedImage) (drawThrows : Bool),
      (u.decode = none →
        createMergedImages u d drawThrows =
          [⟨1, ResultURL.passthrough d.data, "Original", "original"⟩]) ∧
      (u.decode.isSome → d.decode = none →
        createMergedImages u d drawThrows =
          [⟨1, ResultURL.passthrough u.data, "Original", "original"⟩]) := by
  intro u d drawThrows
  unfold createMergedImages
  cases u.decode <;> cases d.decode <;> simp

/-- Witness for C5 (amended) at concrete inputs: an undecodable subject
returns the garment payload; an undecodable garment under a decoded subject
returns the subject payload. -/
theorem c5_decode_passthrough_witness :
    createMergedImages ⟨"subj", none⟩ ⟨"garm", some ⟨4, 4⟩⟩ false =
      [⟨1, ResultURL.passthrough "garm", "Original", "original"⟩] ∧
    createMergedImages ⟨"subj", some ⟨4, 4⟩⟩ ⟨"garm", none⟩ false =
      [⟨1, ResultURL.passthrough "subj", "Original", "original"⟩] :=
  ⟨(c5_decode_passthrough ⟨"subj", none⟩ ⟨"garm", some ⟨4, 4⟩⟩ false).1 rfl,
   (c5_decode_passthrough ⟨"subj", some ⟨4, 4⟩⟩ ⟨"garm", none⟩ false).2
     rfl rfl⟩

/-- C6: on decoded inputs the compositor places the face overlay using
exactly the spec's integer-rounded values — destination: width 25% of
canvas width, height 120% of that width, x centered, y 8% of canvas
height; source crop from the subject's own size: x 25%, y 10%, width 50%,
height 40% — under a rounded-rectangle clip of corner radius 36. -/
theorem c6_overlay_geometry :
    ∀ (u d : EncodedImage) (ud dd : Dims),
      u.decode = some ud → d.decode = some dd →
      overlayOf (createMergedImages u d false) =
        some (OverlayOp.clipped (specSrcX ud) (specSrcY ud) (specSrcW ud)
          (specSrcH ud) (specDstX dd) (specDstY dd) (specDstW dd)
          (specDstH dd) 36) := by
  intro u d ud dd hu hd
  unfold createMergedImages
  rw [hu, hd]
  simp [overlayOf, canvasOf, overlayGeom_spec]

/-- Witness for C6: the spec's own scenario — subject 800×600, garment
1000×1500 — gives the face region 250×300 at (375, 120) and the source
crop (200, 60, 400, 240), clipped at radius 36. -/
theorem c6_overlay_geometry_witness :
    overlayOf (createMergedImages ⟨"u", some ⟨800, 600⟩⟩
        ⟨"d", some ⟨1000, 1500⟩⟩ false) =
      some (OverlayOp.clipped 200 60 400 240 375 120 250 300 36) := by
  rw [c6_overlay_geometry ⟨"u", some ⟨800, 600⟩⟩ ⟨"d", some ⟨1000, 1500⟩⟩
    ⟨800, 600⟩ ⟨1000, 1500⟩ rfl rfl]
  norm_num [specSrcX, specSrcY, specSrcW, specSrcH, specDstX, specDstY,
    specDstW, specDstH, jsRound]

/-- C7 counterexample: `handleLogin` with email `"a@b.com"` and password
`"short"` passes client-side validation (which only requires a non-empty
password) and issues one HTTP call — it does not fail client-side with a
password-length message and does not make zero HTTP calls.  (The outcome's
error text is the network-failure text of the attempted call, not a length
message; the ≥ 6-character check exists only in the signup path.) -/
theorem c7_counterexample :
    isValidEmail "a@b.com" = true ∧
    handleLogin "a@b.com" "short" LoginResponse.networkError =
      ⟨"Login failed. Check network or server.", 1, false⟩ := by
  constructor
  · rfl
  · rfl

/-- C7 as amended: login's client-side validation checks only email format
and password non-emptiness.  With a valid email and any non-empty password
(such as `"short"`), exactly one HTTP call is issued; only an empty
password fails client-side (message "Please enter your password") with
zero HTTP calls.  There is no password-length check in login. -/
theorem c7_login_validation :
    (∀ (email password : String) (resp : LoginResponse),
      isValidEmail email = true → password ≠ "" →
      (handleLogin email password resp).httpCalls = 1) ∧
    (∀ (email : String) (resp : LoginResponse),
      isValidEmail email = true →
      handleLogin email "" resp = ⟨"Please enter your password", 0, false⟩) := by
  constructor
  · intro email password resp hvalid hpw
    unfold handleLogin
    rw [if_neg (by simp [hvalid]), if_neg hpw]
    cases resp with
    | networkError => rfl
    | http status msg => dsimp only; split <;> rfl
  · intro email resp hvalid
    unfold handleLogin
    rw [if_neg (by simp [hvalid]), if_pos rfl]

/-- Witness for C7 (amended): at `("a@b.com", "short")` one HTTP call is
made; at `("a@b.com", "")` the client-side gate fires with zero calls. -/
theorem c7_login_validation_witness :
    (handleLogin "a@b.com" "short" LoginResponse.networkError).httpCalls = 1 ∧
    handleLogin "a@b.com" "" LoginResponse.networkError =
      ⟨"Please enter your password", 0, false⟩ :=
  ⟨c7_login_validation.1 "a@b.com" "short" LoginResponse.networkError
      (by decide) (by decide),
   c7_login_validation.2 "a@b.com" LoginResponse.networkError (by decide)⟩

/-- C8 counterexample: in the App.js variant the registry lookup
`currentModelData` has no fallback — for the unrecognized id
`"no-such-model"` it produces an absent (`undefined`) descriptor, so
resolution is not total there as the claim states. -/
theorem c8_counterexample :
    currentModelData "no-such-model" = none ∧ allModels ≠ [] := by
  constructor
  · rfl
  · decide

/-- C8 as amended: in the part_000 variant (both resolution sites,
`handleGenerate` and the upload page's `currentModel`) resolution
`find(...) || allModels[0]` always yields a registry descriptor, falling
back to the designated default — the no-credential canvas entry — on an
unrecognized id; the App.js variant's bare `allModels.find` instead yields
an absent descriptor on a miss. -/
theorem c8_resolution_default :
    ∀ modelId : String,
      resolveModelB modelId ∈ allModelsB ∧
      ((∀ m ∈ allModelsB, m.id ≠ modelId) →
        resolveModelB modelId = canvasModelB ∧ canvasModelB.needsApi = false) ∧
      (∀ m : ModelDescriptor,
        allModelsB.find? (fun x => x.id == modelId) = some m →
        resolveModelB modelId = m) := by
  intro modelId
  refine ⟨?_, ?_, ?_⟩
  · unfold resolveModelB
    cases hf : allModelsB.find? (fun x => x.id == modelId) with
    | none => simp [allModelsB]
    | some m => simpa using List.mem_of_find?_eq_some hf
  · intro h
    have hf : allModelsB.find? (fun x => x.id == modelId) = none := by
      rw [List.find?_eq_none]
      intro x hx
      simpa using h x hx
    exact ⟨by rw [resolveModelB, hf]; rfl, rfl⟩
  · intro m hm
    rw [resolveModelB, hm]
    rfl

/-- Witness for C8 (amended): the unrecognized id `"no-such-model"`
resolves to the default canvas descriptor, and the recognized id
`"deepai"` resolves to its own entry. -/
theorem c8_resolution_default_witness :
    (resolveModelB "no-such-model" = canvasModelB ∧
      canvasModelB.needsApi = false) ∧
    resolveModelB "deepai" = ⟨"deepai", "DeepAI", true, "Image editing API"⟩ :=
  ⟨(c8_resolution_default "no-such-model").2.1 (by decide),
   (c8_resolution_default "deepai").2.2 _ rfl⟩

/-- C9: image ingestion validates in order — declared content type first,
byte size (≤ 6 MiB) second — and a violation of either sets exactly the
validation message and performs no further work: no file read is started
and neither photo slot changes. -/
theorem c9_ingest_validation :
    ∀ (file : JSFile) (userPhoto dressPhoto : Option String)
      (ptype : String) (readOk : Bool),
      (¬ "image/".toList.isPrefixOf file.ftype.toList →
        validateImageFile file =
          some "Please upload an image file (jpg, png, etc.)") ∧
      ("image/".toList.isPrefixOf file.ftype.toList →
        file.size > 6 * 1024 * 1024 →
        validateImageFile file = some "Image too large. Max 6MB.") ∧
      (∀ err : String, validateImageFile file = some err →
        handleImageUpload userPhoto dressPhoto (some file) ptype readOk =
          ⟨err, userPhoto, dressPhoto, 0⟩) := by
  intro file userPhoto dressPhoto ptype readOk
  refine ⟨?_, ?_, ?_⟩
  · intro htype
    rw [validateImageFile, if_pos htype]
  · intro htype hsize
    rw [validateImageFile, if_neg (by simpa using htype), if_pos hsize]
  · intro err hv
    simp only [handleImageUpload]
    rw [hv]

/-- Witness for C9: a 7,000,000-byte `text/plain` file violates both
constraints; the content-type message wins (order), and ingestion stops
with no read and unchanged photo slots. -/
theorem c9_ingest_validation_witness :
    validateImageFile ⟨"text/plain", 7000000, "x"⟩ =
      some "Please upload an image file (jpg, png, etc.)" ∧
    handleImageUpload none none (some ⟨"text/plain", 7000000, "x"⟩)
        "user" true =
      ⟨"Please upload an image file (jpg, png, etc.)", none, none, 0⟩ := by
  have h1 := (c9_ingest_validation ⟨"text/plain", 7000000, "x"⟩ none none
    "user" true).1 (by decide)
  exact ⟨h1, (c9_ingest_validation ⟨"text/plain", 7000000, "x"⟩ none none
    "user" true).2.2 _ h1⟩

/-- C10: for any selected model id other than `nanobanana` and `deepai` —
including the credential-requiring entries `huggingface`, `replicate` and
`stability`, which have no remote adapter — `handleGenerate` (photos
present; key present when the resolved descriptor needs one) dispatches
directly to the Local Compositor: zero network calls, one compositor call,
and a result tagged `canvas` (or `original` on decode failure). -/
theorem c10_non_adapter_models_local :
    ∀ (st : AppState) (env : GenEnv) (u d : EncodedImage),
      st.userPhoto = some u → st.dressPhoto = some d →
      st.selectedModel ≠ "nanobanana" → st.selectedModel ≠ "deepai" →
      (((currentModelData st.selectedModel).map
          (fun m => m.needsApi)).getD false = true → st.apiKey ≠ "") →
      (handleGenerate st env).networkCalls = 0 ∧
      (handleGenerate st env).compositorCalls = 1 ∧
      (handleGenerate st env).page = "results" ∧
      (handleGenerate st env).generatedImages =
        some (createMergedImages u d env.drawThrows) ∧
      ((createMergedImages u d env.drawThrows).map (·.source) = ["canvas"] ∨
        (createMergedImages u d env.drawThrows).map (·.source) =
          ["original"]) := by
  intro st env u d hu hd hn hdai hkey
  obtain ⟨up, dp, sm, ak⟩ := st
  simp only at hu hd hn hdai hkey
  subst hu hd
  have hguard : ¬ (((currentModelData sm).map (fun m => m.needsApi)).getD false
      = true ∧ ak = "") := fun h => hkey h.1 h.2
  have hne := createMergedImages_ne_nil u d env.drawThrows
  simp only [handleGenerate]
  rw [if_neg (by simpa using hguard), if_neg hn, if_neg hdai,
    if_neg (by simpa using hne)]
  exact ⟨rfl, rfl, rfl, rfl, createMergedImages_sources u d env.drawThrows⟩

/-- Witness for C10: `huggingface` — a credential-requiring entry with no
adapter — with key `"k"` runs the compositor locally with zero network
calls. -/
theorem c10_non_adapter_models_local_witness :
    (handleGenerate
        ⟨some ⟨"u", some ⟨4, 4⟩⟩, some ⟨"d", some ⟨4, 4⟩⟩, "huggingface", "k"⟩
        ⟨RemoteResponse.networkError, RemoteResponse.networkError, false⟩).networkCalls = 0 ∧
    (handleGenerate
        ⟨some ⟨"u", some ⟨4, 4⟩⟩, some ⟨"d", some ⟨4, 4⟩⟩, "huggingface", "k"⟩
        ⟨RemoteResponse.networkError, RemoteResponse.networkError, false⟩).compositorCalls = 1 ∧
    (handleGenerate
        ⟨some ⟨"u", some ⟨4, 4⟩⟩, some ⟨"d", some ⟨4, 4⟩⟩, "huggingface", "k"⟩
        ⟨RemoteResponse.networkError, RemoteResponse.networkError, false⟩).page = "results" ∧
    (handleGenerate
        ⟨some ⟨"u", some ⟨4, 4⟩⟩, some ⟨"d", some ⟨4, 4⟩⟩, "huggingface", "k"⟩
        ⟨RemoteResponse.networkError, RemoteResponse.networkError, false⟩).generatedImages =
      some (createMergedImages ⟨"u", some ⟨4, 4⟩⟩ ⟨"d", some ⟨4, 4⟩⟩ false) ∧
    ((createMergedImages ⟨"u", some ⟨4, 4⟩⟩ ⟨"d", some ⟨4, 4⟩⟩ false).map
        (·.source) = ["canvas"] ∨
      (createMergedImages ⟨"u", some ⟨4, 4⟩⟩ ⟨"d", some ⟨4, 4⟩⟩ false).map
        (·.source) = ["original"]) :=
  c10_non_adapter_models_local
    ⟨some ⟨"u", some ⟨4, 4⟩⟩, some ⟨"d", some ⟨4, 4⟩⟩, "huggingface", "k"⟩
    ⟨RemoteResponse.networkError, RemoteResponse.networkError, false⟩
    ⟨"u", some ⟨4, 4⟩⟩ ⟨"d", some ⟨4, 4⟩⟩ rfl rfl (by decide) (by decide)
    (fun _ => by decide)

end StitchPix
